import Mathlib

/-!
Shallow embedding of the recursive-descent parser in `src/parser/Parser.cpp` of the
TKOM-Compiler repository, together with theorems settling the frozen claims about it.

The parser is a single C++ translation unit; the collaborating classes
(`Scanner`, `BlockStatement`, `FunctionDefinition`, `Program`, the AST node
classes) are not part of the provided sources, so their behaviour is modelled
from the specification where it matters (each such definition carries a
`Modelled from the spec:` doc comment).  Everything else is a direct
translation of `Parser.cpp`.

The C++ parser is a stateful object (token cursor, current-block pointer,
function table) whose methods signal faults by throwing; a thrown exception
unwinds without rolling back the object's state.  The embedding therefore uses
the monad `PState -> Except Err a × PState`: an error short-circuits but the
state at the moment of the throw is retained, exactly as the C++ members
survive an exception.  The mutually recursive descent is made total with a
fuel argument; `Err.outOfFuel` marks fuel exhaustion (reachable for every fuel
exactly when the C++ code diverges).
-/

/-- Token kinds required by the parser, one constructor per `TokenType`
enumerator used in `Parser.cpp` (spec section 6 lists the same set). -/
inductive TokenType where
  | T_EOF | K_Fun | K_Var | K_If | K_Else | K_While | K_Return | K_Break | K_Continue
  | K_Append | K_Len
  | I_Identifier | L_Numeric
  | T_OpenParen | T_CloseParen | T_OpenBrace | T_CloseBrace
  | T_OpenBracket | T_CloseBracket
  | T_Comma | T_Semicolon | T_Colon
  | T_Equal | T_Equal2 | T_NotEqual
  | T_LessThan | T_LeEqThan | T_GreaterThan | T_GrEqThan
  | T_Plus | T_Minus | T_Asterisk | T_Slash
  | T_Exclamation | T_Bar2 | T_Ampersand2
  deriving DecidableEq, Repr

/-- Token: a type tag plus the payloads the parser reads (`Token::getString`
for identifiers, `Token::getInteger` for numeric literals).  Source positions
are dropped: they only feed diagnostic message text. -/
structure Token where
  type : TokenType
  str : String := ""
  num : Int := 0
  deriving DecidableEq, Repr

/-- Value shape tag of the `Var` value model (scalar integer or list). -/
inductive VarType where
  | INT | LIST
  deriving DecidableEq, Repr

/-- Value model `Var`: a tag plus an integer vector, as built by the parser
(`Var(VarType::INT, {n})` for a numeric literal, `Var(VarType::LIST, vs)` for
a vector literal). -/
structure Var where
  type : VarType
  values : List Int
  deriving DecidableEq, Repr

/-- Modelled from the spec: the default-constructed `Var()` used for a `var`
declaration without initializer; the spec calls it an "implicitly zero-valued
scalar" (the `Var` class itself is not among the provided sources). -/
def defaultVar : Var := ⟨VarType.INT, [0]⟩

/-- Fault taxonomy: one constructor per distinct `throw` site of `Parser.cpp`,
plus `outOfFuel` marking exhaustion of the termination fuel (i.e. divergence
of the C++ original).  The spec names them SyntaxError (`wrongToken`),
DuplicateVariable, UndefinedVariable, UndefinedFunction, ArityMismatch and
UnrecognizedExpression (`unknownMathExpr`); `blockParseInvalid` is the
"Block parse invalid" default of the statement dispatch. -/
inductive Err where
  | wrongToken
  | duplicateVariable
  | undefinedVariable
  | undefinedFunction
  | arityMismatch
  | unknownMathExpr
  | blockParseInvalid
  | outOfFuel
  deriving DecidableEq, Repr

/-- Relational comparators of `RelationExpr`. -/
inductive RelOp where
  | eq | ne | lt | le | gt | ge
  deriving DecidableEq, Repr

/-- Additive operators of `AddExpr`. -/
inductive AddOp where
  | plus | minus
  deriving DecidableEq, Repr

/-- Multiplicative operators of `MultiExpr`. -/
inductive MulOp where
  | times | divide
  deriving DecidableEq, Repr

/-- Expression AST.  The C++ node classes all derive from `Expression` and
their constructors take type-erased `Expression` children, so a single
inductive mirrors them: `orE`/`andE` hold the first operand plus the operands
added by `addOr`/`addAnd`; `relE` holds at most one comparator; `logicE` is
`BaseLogicExpr` (operand plus negation flag); `addE`/`mulE` hold the
left-associated operator chains; the remaining constructors are the
`BaseMathExpr` variants (literal, parenthesized, `len`, call, variable,
indexed variable, sliced variable), each carrying the unary-minus flag.
Resolved `Var&` references are represented by the variable's name. -/
inductive Expression where
  | orE : Expression → List Expression → Expression
  | andE : Expression → List Expression → Expression
  | relE : Expression → Option (RelOp × Expression) → Expression
  | logicE : Expression → Bool → Expression
  | addE : Expression → List (AddOp × Expression) → Expression
  | mulE : Expression → List (MulOp × Expression) → Expression
  | litE : Var → Bool → Expression
  | parenE : Expression → Bool → Expression
  | lenE : String → Bool → Expression
  | callE : String → List Expression → Bool → Expression
  | varE : String → Bool → Expression
  | idxE : String → Expression → Bool → Expression
  | sliceE : String → Expression → Expression → Bool → Expression
  deriving Repr

/-- Control-exit kind of a `ReturnStatement` built for `continue` / `break`. -/
inductive Ctrl where
  | continueC | breakC
  deriving DecidableEq, Repr

/-- Statement AST, one constructor per statement node class the parser builds.
Nested blocks (function bodies, `if`/`while`/`{}` blocks) live in the block
arena of the parser state and are referenced by index. -/
inductive Statement where
  | assignS : String → Option Expression → Expression → Statement
  | returnS : Expression → Statement
  | ctrlS : Ctrl → Statement
  | ifS : Expression → Nat → Option Nat → Statement
  | whileS : Expression → Nat → Statement
  | callS : String → List Expression → Statement
  | appendS : String → String → Statement
  | blockS : Nat → Statement
  deriving Repr

/-- One `BlockStatement`: parent link (none for a function's top-level block),
declared variables in declaration order, and attached statements.  Blocks are
stored in an arena (list indexed by `Nat`); a parent index always points to an
earlier arena entry. -/
structure BlockData where
  parent : Option Nat
  vars : List (String × Var)
  stmts : List Statement
  deriving Repr

/-- One `FunctionDefinition`: parameter names in order and the arena index of
the function's top-level block (`getFunctionBlock`).  `size()` is
`params.length`. -/
structure FunDef where
  params : List String
  blockIdx : Nat
  deriving Repr

/-- Parser state: the remaining token stream (head = the one-token lookahead
`next`, i.e. `scr->getToken()`), the most recently consumed token `current`,
the block arena, the current-block cursor (`Parser::block`, null before any
function body is entered), and the function table (`Program`). -/
structure PState where
  toks : List Token
  current : Token
  blocks : List BlockData
  blockCur : Option Nat
  program : List (String × FunDef)
  deriving Repr

/-- Parser monad: state threading with short-circuiting faults that keep the
state at the moment of the throw (C++ members survive an exception). -/
def M (α : Type) : Type := PState → Except Err α × PState

/-- Monadic return. -/
def M.pure (a : α) : M α := fun s => (Except.ok a, s)

/-- Monadic bind; a fault skips the continuation but keeps the state. -/
def M.bind (m : M α) (f : α → M β) : M β := fun s =>
  match m s with
  | (Except.ok a, s1) => f a s1
  | (Except.error e, s1) => (Except.error e, s1)

instance : Monad M where
  pure := M.pure
  bind := M.bind

/-- Raise a fault (a C++ `throw`). -/
def M.throw (e : Err) : M α := fun s => (Except.error e, s)

/-- Fuel exhaustion: the C++ original diverges past this point. -/
def throwF : M α := M.throw Err.outOfFuel

/-- Read the whole parser state. -/
def getS : M PState := fun s => (Except.ok s, s)

/-- Update the parser state. -/
def modifyS (f : PState → PState) : M Unit := fun s => (Except.ok (), f s)

/-- The token the scanner yields at end of stream (the scanner keeps
reporting `T_EOF` once the input is exhausted). -/
def eofTok : Token := { type := TokenType.T_EOF }

/-- The lookahead token `next` (`scr->getToken()`). -/
def nextTok (s : PState) : Token :=
  match s.toks with
  | [] => eofTok
  | t :: _ => t

/-- State effect of `Parser::move()`: the lookahead becomes `current` and the
scanner advances. -/
def moveSt (s : PState) : PState :=
  { s with current := nextTok s, toks := s.toks.tail }

/-- Translation of `Parser::move()`. -/
def move : M Unit := fun s => (Except.ok (), moveSt s)

/-- Read `current`, the most recently consumed token. -/
def getCurrent : M Token := fun s => (Except.ok s.current, s)

/-- Translation of `Parser::accept` (Parser.cpp lines 20-27): if the lookahead
token has type `t`, consume it and report true; otherwise throw a syntax
fault when `doThrow` is set (the header's default argument is `NOTHROW`,
i.e. `false`, as every single-argument call site requires) and report false
when it is not. -/
def accept (t : TokenType) (doThrow : Bool) : M Bool := fun s =>
  if (nextTok s).type = t then (Except.ok true, moveSt s)
  else if doThrow then (Except.error Err.wrongToken, s)
  else (Except.ok false, s)

/-- Shorthand for `accept tk THROW` with the result discarded, the pattern
used for mandatory grammar tokens. -/
def expect (t : TokenType) : M Unit := do
  let _ ← accept t true
  M.pure ()

/-- Lookup in one block's own variable list. -/
def lookupVar : List (String × Var) → String → Bool
  | [], _ => false
  | (n, _) :: rest, id => if n = id then true else lookupVar rest id

/-- Arena access by index. -/
def getBlock : List BlockData → Nat → Option BlockData
  | [], _ => none
  | b :: _, 0 => some b
  | _ :: bs, n + 1 => getBlock bs n

/-- Arena update by index. -/
def modifyBlock (f : BlockData → BlockData) : List BlockData → Nat → List BlockData
  | [], _ => []
  | b :: bs, 0 => f b :: bs
  | b :: bs, n + 1 => b :: modifyBlock f bs n

/-- Modelled from the spec: `BlockStatement::existVariable` — the
`BlockStatement` class is not among the provided sources; the spec states
"lookups walk outward through parent links until found or the chain is
exhausted" (sections 3 and 4.4).  `fuel` bounds the parent walk; parent links
always point to earlier arena entries, so `blocks.length + 1` steps suffice
and the bound is never the reason a lookup fails. -/
def existVarFrom (blocks : List BlockData) : Nat → Nat → String → Bool
  | 0, _, _ => false
  | fuel + 1, i, id =>
    match getBlock blocks i with
    | none => false
    | some bd =>
      if lookupVar bd.vars id then true
      else
        match bd.parent with
        | none => false
        | some p => existVarFrom blocks fuel p id

/-- Chain lookup starting at the current block (`block->existVariable(id)`). -/
def existVar (s : PState) (id : String) : Bool :=
  match s.blockCur with
  | none => false
  | some b => existVarFrom s.blocks (s.blocks.length + 1) b id

/-- Translation of `Parser::existVariable` (Parser.cpp lines 409-415): throw
`UndefinedVariable` when `current.getString()` is not resolvable in the
current scope chain. -/
def existVariableM : M Bool := fun s =>
  if existVar s s.current.str then (Except.ok true, s)
  else (Except.error Err.undefinedVariable, s)

/-- Modelled from the spec: `BlockStatement::findVariable` walks the same
parent chain and yields the variable's storage slot; a reference to a name
"not found in the current block or any ancestor" is an `UndefinedVariable`
fault (spec section 7).  The returned slot handle is represented by the
resolved name. -/
def findVariableM (id : String) : M String := fun s =>
  if existVar s id then (Except.ok id, s)
  else (Except.error Err.undefinedVariable, s)

/-- Modelled from the spec: `BlockStatement::addVariable` declares a name in
the *current* block only ("Declaration always writes into the current block
only", spec section 4.4). -/
def addVarCur (id : String) (v : Var) : M Unit := modifyS fun s =>
  match s.blockCur with
  | none => s
  | some b =>
    { s with blocks := modifyBlock (fun bd => { bd with vars := bd.vars ++ [(id, v)] }) s.blocks b }

/-- Modelled from the spec: `BlockStatement::addStatement` appends a parsed
statement to the current block. -/
def addStmtCur (st : Statement) : M Unit := modifyS fun s =>
  match s.blockCur with
  | none => s
  | some b =>
    { s with blocks := modifyBlock (fun bd => { bd with stmts := bd.stmts ++ [st] }) s.blocks b }

/-- Allocate a fresh `BlockStatement` with the given parent link
(`new BlockStatement(parent)`), yielding its arena index. -/
def newBlockM (parent : Option Nat) : M Nat := fun s =>
  (Except.ok s.blocks.length, { s with blocks := s.blocks ++ [⟨parent, [], []⟩] })

/-- Modelled from the spec: `Program::findFunction` — the function table is an
insertion-ordered mapping from name to definition. -/
def findFunction : List (String × FunDef) → String → Option FunDef
  | [], _ => none
  | (n, fd) :: rest, m => if n = m then some fd else findFunction rest m

/-- Modelled from the spec: `Program::existFunction`. -/
def existFunction (p : List (String × FunDef)) (n : String) : Bool :=
  (findFunction p n).isSome

/-- Modelled from the spec: `Program::addFunction` — registration is
irreversible and a duplicate name silently overwrites (spec section 4.1). -/
def addFunction : List (String × FunDef) → String → FunDef → List (String × FunDef)
  | [], n, fd => [(n, fd)]
  | (k, v) :: rest, n, fd =>
    if k = n then (n, fd) :: rest else (k, v) :: addFunction rest n fd

/-- Translation of `Parser::parseAppendStatement` (Parser.cpp lines 240-253):
`append ( identifierA , identifierB ) ;` with both identifiers resolved
through `findVariable`. -/
def parseAppendStatement : M Statement := do
  expect TokenType.T_OpenParen
  expect TokenType.I_Identifier
  let c1 ← getCurrent
  let a ← findVariableM c1.str
  expect TokenType.T_Comma
  expect TokenType.I_Identifier
  let c2 ← getCurrent
  let b ← findVariableM c2.str
  expect TokenType.T_CloseParen
  expect TokenType.T_Semicolon
  M.pure (Statement.appendS a b)

/-- Translation of `Parser::parseLenStatement` (Parser.cpp lines 255-263):
`len ( identifier )` resolving the identifier; yields the resolved name for
the `BaseMathExpr` wrapper. -/
def parseLenStatement : M String := do
  expect TokenType.T_OpenParen
  expect TokenType.I_Identifier
  let c ← getCurrent
  let v ← findVariableM c.str
  expect TokenType.T_CloseParen
  M.pure v

/-- Comma loop of `Parser::parseVectorLiteral` (Parser.cpp lines 400-403):
every further element must again be a bare numeric literal. -/
def parseVectorLoop : Nat → List Int → M (List Int)
  | 0, _ => throwF
  | fuel + 1, acc => do
    let b ← accept TokenType.T_Comma false
    if b then do
      expect TokenType.L_Numeric
      let c ← getCurrent
      parseVectorLoop fuel (acc ++ [c.num])
    else M.pure acc

/-- Translation of `Parser::parseVectorLiteral` (Parser.cpp lines 397-407):
after the consumed `[`, a mandatory numeric literal, then `, numeric` repeats,
then a mandatory `]`; builds `Var(VarType::LIST, elements)`. -/
def parseVectorLiteral : Nat → M Var
  | 0 => throwF
  | fuel + 1 => do
    expect TokenType.L_Numeric
    let c ← getCurrent
    let vs ← parseVectorLoop fuel [c.num]
    expect TokenType.T_CloseBracket
    M.pure ⟨VarType.LIST, vs⟩

/-- Comma loop of `Parser::parseArgs` (Parser.cpp lines 53-56). -/
def parseArgsLoop : Nat → Nat → List String → M (List String)
  | 0, _, _ => throwF
  | fuel + 1, blk, acc => do
    let b ← accept TokenType.T_Comma false
    if b then do
      expect TokenType.I_Identifier
      let c ← getCurrent
      modifyS fun s =>
        { s with blocks := modifyBlock (fun bd => { bd with vars := bd.vars ++ [(c.str, defaultVar)] }) s.blocks blk }
      parseArgsLoop fuel blk (acc ++ [c.str])
    else M.pure acc

/-- Translation of `Parser::parseArgs` (Parser.cpp lines 50-59): an optional
comma-separated identifier list, then a mandatory `)`.  Modelled from the
spec: `FunctionDefinition::addParam` records the parameter and declares it in
the function's top-level block ("each becomes a scope-local variable in the
function's top-level block", spec section 3). -/
def parseArgs : Nat → Nat → M (List String)
  | 0, _ => throwF
  | fuel + 1, blk => do
    let b ← accept TokenType.I_Identifier false
    if b then do
      let c ← getCurrent
      modifyS fun s =>
        { s with blocks := modifyBlock (fun bd => { bd with vars := bd.vars ++ [(c.str, defaultVar)] }) s.blocks blk }
      let ps ← parseArgsLoop fuel blk [c.str]
      expect TokenType.T_CloseParen
      M.pure ps
    else do
      expect TokenType.T_CloseParen
      M.pure []

/-- Read the type of the lookahead token (the uses of `next.getType()` in
`parseRelExpr`, `parseAddExpr` and `parseMultExpr`). -/
def getNextType : M TokenType := fun s => (Except.ok (nextTok s).type, s)

mutual

/-- Translation of `Parser::parseOrExpr` (Parser.cpp lines 265-273). -/
def parseOrExpr : Nat → M Expression
  | 0 => throwF
  | fuel + 1 => do
    let first ← parseAndExpr fuel
    let rest ← parseOrLoop fuel []
    M.pure (Expression.orE first rest)
termination_by structural fuel => fuel

/-- The `while (accept(T_Bar2))` loop of `parseOrExpr`. -/
def parseOrLoop : Nat → List Expression → M (List Expression)
  | 0, _ => throwF
  | fuel + 1, acc => do
    let b ← accept TokenType.T_Bar2 false
    if b then do
      let e ← parseAndExpr fuel
      parseOrLoop fuel (acc ++ [e])
    else M.pure acc
termination_by structural fuel _ => fuel

/-- Translation of `Parser::parseAndExpr` (Parser.cpp lines 275-283). -/
def parseAndExpr : Nat → M Expression
  | 0 => throwF
  | fuel + 1 => do
    let first ← parseRelExpr fuel
    let rest ← parseAndLoop fuel []
    M.pure (Expression.andE first rest)
termination_by structural fuel => fuel

/-- The `while (accept(T_Ampersand2))` loop of `parseAndExpr`. -/
def parseAndLoop : Nat → List Expression → M (List Expression)
  | 0, _ => throwF
  | fuel + 1, acc => do
    let b ← accept TokenType.T_Ampersand2 false
    if b then do
      let e ← parseRelExpr fuel
      parseAndLoop fuel (acc ++ [e])
    else M.pure acc
termination_by structural fuel _ => fuel

/-- Translation of `Parser::parseRelExpr` (Parser.cpp lines 285-308): at most
one comparator, chosen by the lookahead token. -/
def parseRelExpr : Nat → M Expression
  | 0 => throwF
  | fuel + 1 => do
    let base ← parseBaseLogicExpr fuel
    let t ← getNextType
    match t with
    | TokenType.T_Equal2 => do
      move
      let r ← parseBaseLogicExpr fuel
      M.pure (Expression.relE base (some (RelOp.eq, r)))
    | TokenType.T_NotEqual => do
      move
      let r ← parseBaseLogicExpr fuel
      M.pure (Expression.relE base (some (RelOp.ne, r)))
    | TokenType.T_LessThan => do
      move
      let r ← parseBaseLogicExpr fuel
      M.pure (Expression.relE base (some (RelOp.lt, r)))
    | TokenType.T_LeEqThan => do
      move
      let r ← parseBaseLogicExpr fuel
      M.pure (Expression.relE base (some (RelOp.le, r)))
    | TokenType.T_GreaterThan => do
      move
      let r ← parseBaseLogicExpr fuel
      M.pure (Expression.relE base (some (RelOp.gt, r)))
    | TokenType.T_GrEqThan => do
      move
      let r ← parseBaseLogicExpr fuel
      M.pure (Expression.relE base (some (RelOp.ge, r)))
    | _ => M.pure (Expression.relE base none)
termination_by structural fuel => fuel

/-- Translation of `Parser::parseBaseLogicExpr` (Parser.cpp lines 310-316):
an optional `!` whose negation flag wraps the *entire* following additive
expression. -/
def parseBaseLogicExpr : Nat → M Expression
  | 0 => throwF
  | fuel + 1 => do
    let neg ← accept TokenType.T_Exclamation false
    let a ← parseAddExpr fuel
    M.pure (Expression.logicE a neg)
termination_by structural fuel => fuel

/-- Translation of `Parser::parseAddExpr` (Parser.cpp lines 318-331). -/
def parseAddExpr : Nat → M Expression
  | 0 => throwF
  | fuel + 1 => do
    let first ← parseMultExpr fuel
    let rest ← parseAddLoop fuel []
    M.pure (Expression.addE first rest)
termination_by structural fuel => fuel

/-- The `+` / `-` loop of `parseAddExpr`. -/
def parseAddLoop : Nat → List (AddOp × Expression) → M (List (AddOp × Expression))
  | 0, _ => throwF
  | fuel + 1, acc => do
    let t ← getNextType
    if t = TokenType.T_Plus then do
      move
      let e ← parseMultExpr fuel
      parseAddLoop fuel (acc ++ [(AddOp.plus, e)])
    else if t = TokenType.T_Minus then do
      move
      let e ← parseMultExpr fuel
      parseAddLoop fuel (acc ++ [(AddOp.minus, e)])
    else M.pure acc
termination_by structural fuel _ => fuel

/-- Translation of `Parser::parseMultExpr` (Parser.cpp lines 333-346). -/
def parseMultExpr : Nat → M Expression
  | 0 => throwF
  | fuel + 1 => do
    let first ← parseBaseMathExpr fuel
    let rest ← parseMultLoop fuel []
    M.pure (Expression.mulE first rest)
termination_by structural fuel => fuel

/-- The `*` / `/` loop of `parseMultExpr`. -/
def parseMultLoop : Nat → List (MulOp × Expression) → M (List (MulOp × Expression))
  | 0, _ => throwF
  | fuel + 1, acc => do
    let t ← getNextType
    if t = TokenType.T_Asterisk then do
      move
      let e ← parseBaseMathExpr fuel
      parseMultLoop fuel (acc ++ [(MulOp.times, e)])
    else if t = TokenType.T_Slash then do
      move
      let e ← parseBaseMathExpr fuel
      parseMultLoop fuel (acc ++ [(MulOp.divide, e)])
    else M.pure acc
termination_by structural fuel _ => fuel

/-- Translation of `Parser::parseBaseMathExpr` (Parser.cpp lines 348-395):
optional unary `-`, then the primary alternatives tried in source order:
numeric literal, vector literal, parenthesized expression, `len`, identifier
(function call, indexed/sliced or bare variable reference), otherwise the
"Unknown math expression" fault. -/
def parseBaseMathExpr : Nat → M Expression
  | 0 => throwF
  | fuel + 1 => do
    let unary ← accept TokenType.T_Minus false
    let bNum ← accept TokenType.L_Numeric false
    if bNum then do
      let c ← getCurrent
      M.pure (Expression.litE ⟨VarType.INT, [c.num]⟩ unary)
    else do
      let bVec ← accept TokenType.T_OpenBracket false
      if bVec then do
        let v ← parseVectorLiteral fuel
        M.pure (Expression.litE v unary)
      else do
        let bPar ← accept TokenType.T_OpenParen false
        if bPar then do
          let e ← parseOrExpr fuel
          expect TokenType.T_CloseParen
          M.pure (Expression.parenE e unary)
        else do
          let bLen ← accept TokenType.K_Len false
          if bLen then do
            let nm ← parseLenStatement
            M.pure (Expression.lenE nm unary)
          else do
            let bId ← accept TokenType.I_Identifier false
            if bId then do
              let tk ← getCurrent
              let bCall ← accept TokenType.T_OpenParen false
              if bCall then do
                let call ← parseFunCall fuel tk.str
                M.pure (Expression.callE call.1 call.2 unary)
              else do
                let _ ← existVariableM
                let bIdx ← accept TokenType.T_OpenBracket false
                if bIdx then do
                  let ie ← parseOrExpr fuel
                  let idxExpr := Expression.orE ie []
                  let bCol ← accept TokenType.T_Colon false
                  if bCol then do
                    let se ← parseOrExpr fuel
                    let sliceExpr := Expression.orE se []
                    let nm ← findVariableM tk.str
                    let r := Expression.sliceE nm idxExpr sliceExpr unary
                    expect TokenType.T_CloseBracket
                    M.pure r
                  else do
                    let nm ← findVariableM tk.str
                    let r := Expression.idxE nm idxExpr unary
                    expect TokenType.T_CloseBracket
                    M.pure r
                else do
                  let c ← getCurrent
                  let nm ← findVariableM c.str
                  M.pure (Expression.varE nm unary)
            else M.throw Err.unknownMathExpr
termination_by structural fuel => fuel

/-- Argument list of `Parser::parseFunCall` (Parser.cpp lines 174-180): empty
when `)` follows immediately, otherwise expressions separated by `,` up to the
closing `)`. -/
def parseFunCallArgs : Nat → M (List Expression)
  | 0 => throwF
  | fuel + 1 => do
    let b ← accept TokenType.T_CloseParen false
    if b then M.pure []
    else do
      let e ← parseOrExpr fuel
      parseFunCallArgsLoop fuel [e]
termination_by structural fuel => fuel

/-- The `while (!accept(T_CloseParen))` loop of the argument list. -/
def parseFunCallArgsLoop : Nat → List Expression → M (List Expression)
  | 0, _ => throwF
  | fuel + 1, acc => do
    let b ← accept TokenType.T_CloseParen false
    if b then M.pure acc
    else do
      expect TokenType.T_Comma
      let e ← parseOrExpr fuel
      parseFunCallArgsLoop fuel (acc ++ [e])
termination_by structural fuel _ => fuel

/-- Translation of `Parser::parseFunCall` (Parser.cpp lines 165-188): the name
must already exist in the function table (`existFunction`, else the
"Function not found" fault), the arguments are parsed, and then the argument
count must equal the callee's declared parameter count (else the
"Wrong number of parameters" fault). -/
def parseFunCall : Nat → String → M (String × List Expression)
  | 0, _ => throwF
  | fuel + 1, name => do
    let s ← getS
    match findFunction s.program name with
    | none => M.throw Err.undefinedFunction
    | some fd => do
      let es ← parseFunCallArgs fuel
      if fd.params.length ≠ es.length then M.throw Err.arityMismatch
      else M.pure (name, es)
termination_by structural fuel _ => fuel

/-- Translation of `Parser::parseAssignStatement` (Parser.cpp lines 137-163):
optional single index in brackets, mandatory `=`, value expression, `;`.  The
index and value are wrapped in an extra `OrExpr` node exactly as the C++
`make_unique<OrExpr>(parseOrExpr())` does. -/
def parseAssignStatement : Nat → String → M Statement
  | 0, _ => throwF
  | fuel + 1, nm => do
    let bBr ← accept TokenType.T_OpenBracket false
    if bBr then do
      let ie ← parseOrExpr fuel
      let idxExpr := Expression.orE ie []
      expect TokenType.T_CloseBracket
      expect TokenType.T_Equal
      let ve ← parseOrExpr fuel
      expect TokenType.T_Semicolon
      M.pure (Statement.assignS nm (some idxExpr) (Expression.orE ve []))
    else do
      expect TokenType.T_Equal
      let ve ← parseOrExpr fuel
      expect TokenType.T_Semicolon
      M.pure (Statement.assignS nm none (Expression.orE ve []))

/-- Translation of `Parser::parseAssignOrFunCall` (Parser.cpp lines 123-135):
on an identifier statement head, a following `(` makes it a call statement
(with mandatory `;`), otherwise the identifier must resolve in the scope
chain (`Parser::existVariable`) and an assignment follows. -/
def parseAssignOrFunCall : Nat → M Statement
  | 0 => throwF
  | fuel + 1 => do
    let tk ← getCurrent
    let b ← accept TokenType.T_OpenParen false
    if b then do
      let call ← parseFunCall fuel tk.str
      expect TokenType.T_Semicolon
      M.pure (Statement.callS call.1 call.2)
    else do
      let _ ← existVariableM
      let c ← getCurrent
      let nm ← findVariableM c.str
      parseAssignStatement fuel nm

/-- Translation of `Parser::parseInitStatement` (Parser.cpp lines 102-121):
mandatory identifier; the "Variable already initialized" fault when
`block->existVariable` resolves the name; otherwise the name is declared in
the current block, an optional `= expression` initializer is parsed (default:
a literal holding the default `Var()`), and the mandatory `;` closes the
declaration. -/
def parseInitStatement : Nat → M Statement
  | 0 => throwF
  | fuel + 1 => do
    expect TokenType.I_Identifier
    let c ← getCurrent
    let s ← getS
    if existVar s c.str then M.throw Err.duplicateVariable
    else do
      addVarCur c.str defaultVar
      let bEq ← accept TokenType.T_Equal false
      let e ← if bEq then parseOrExpr fuel else M.pure (Expression.litE defaultVar false)
      expect TokenType.T_Semicolon
      let nm ← findVariableM c.str
      M.pure (Statement.assignS nm none e)

/-- Translation of `Parser::parseReturnStatement` (Parser.cpp lines 191-196). -/
def parseReturnStatement : Nat → M Statement
  | 0 => throwF
  | fuel + 1 => do
    let e ← parseOrExpr fuel
    expect TokenType.T_Semicolon
    M.pure (Statement.returnS e)

/-- Translation of `Parser::parseIfStatement` (Parser.cpp lines 198-219):
condition in parentheses, a then-block created with the current block as
parent, and an optional else-block likewise. -/
def parseIfStatement : Nat → M Statement
  | 0 => throwF
  | fuel + 1 => do
    expect TokenType.T_OpenParen
    let cond ← parseOrExpr fuel
    expect TokenType.T_CloseParen
    expect TokenType.T_OpenBrace
    let s ← getS
    let ifB ← newBlockM s.blockCur
    parseStmtBlock fuel ifB
    let bEl ← accept TokenType.K_Else false
    if bEl then do
      expect TokenType.T_OpenBrace
      let s2 ← getS
      let elB ← newBlockM s2.blockCur
      parseStmtBlock fuel elB
      M.pure (Statement.ifS cond ifB (some elB))
    else M.pure (Statement.ifS cond ifB none)
termination_by structural fuel => fuel

/-- Translation of `Parser::parseWhileStatement` (Parser.cpp lines 221-238). -/
def parseWhileStatement : Nat → M Statement
  | 0 => throwF
  | fuel + 1 => do
    expect TokenType.T_OpenParen
    let cond ← parseOrExpr fuel
    expect TokenType.T_CloseParen
    expect TokenType.T_OpenBrace
    let s ← getS
    let wB ← newBlockM s.blockCur
    parseStmtBlock fuel wB
    M.pure (Statement.whileS cond wB)
termination_by structural fuel => fuel

/-- The statement dispatch loop of `Parser::parseStmtBlock` (Parser.cpp lines
66-97): until the closing `}` is accepted, consume one token and dispatch on
it; an unexpected leading token is the "Block parse invalid" fault.  Each
parsed statement is attached to the current block. -/
def parseStmtLoop : Nat → M Unit
  | 0 => throwF
  | fuel + 1 => do
    let b ← accept TokenType.T_CloseBrace false
    if b then M.pure ()
    else do
      move
      let c ← getCurrent
      match c.type with
      | TokenType.K_If => do
        let st ← parseIfStatement fuel
        addStmtCur st
        parseStmtLoop fuel
      | TokenType.K_While => do
        let st ← parseWhileStatement fuel
        addStmtCur st
        parseStmtLoop fuel
      | TokenType.I_Identifier => do
        let st ← parseAssignOrFunCall fuel
        addStmtCur st
        parseStmtLoop fuel
      | TokenType.K_Var => do
        let st ← parseInitStatement fuel
        addStmtCur st
        parseStmtLoop fuel
      | TokenType.K_Return => do
        let st ← parseReturnStatement fuel
        addStmtCur st
        parseStmtLoop fuel
      | TokenType.K_Continue => do
        addStmtCur (Statement.ctrlS Ctrl.continueC)
        expect TokenType.T_Semicolon
        parseStmtLoop fuel
      | TokenType.K_Break => do
        addStmtCur (Statement.ctrlS Ctrl.breakC)
        expect TokenType.T_Semicolon
        parseStmtLoop fuel
      | TokenType.K_Append => do
        let st ← parseAppendStatement
        addStmtCur st
        parseStmtLoop fuel
      | TokenType.T_OpenBrace => do
        let s ← getS
        let nb ← newBlockM s.blockCur
        parseStmtBlock fuel nb
        addStmtCur (Statement.blockS nb)
        parseStmtLoop fuel
      | _ => M.throw Err.blockParseInvalid
termination_by structural fuel => fuel

/-- Translation of `Parser::parseStmtBlock` (Parser.cpp lines 61-100): the
parsed block becomes the current block (line 62), the statement loop runs,
and on normal exit the cursor is restored to the block's parent (line 99).  A
fault unwinds past the restore, leaving the cursor where the fault struck. -/
def parseStmtBlock : Nat → Nat → M Unit
  | 0, _ => throwF
  | fuel + 1, b => do
    modifyS fun s => { s with blockCur := some b }
    parseStmtLoop fuel
    modifyS fun s => { s with blockCur := Option.bind (getBlock s.blocks b) BlockData.parent }
termination_by structural fuel _ => fuel

/-- Translation of `Parser::parseFunction` (Parser.cpp lines 37-48): mandatory
identifier, function object (and its top-level block) created, mandatory `(`,
parameter list, then the function is registered in the program *before* the
mandatory `{` and the body parse. -/
def parseFunction : Nat → M Unit
  | 0 => throwF
  | fuel + 1 => do
    expect TokenType.I_Identifier
    let c ← getCurrent
    let blk ← newBlockM none
    expect TokenType.T_OpenParen
    let ps ← parseArgs fuel blk
    modifyS fun s => { s with program := addFunction s.program c.str ⟨ps, blk⟩ }
    expect TokenType.T_OpenBrace
    parseStmtBlock fuel blk

/-- Translation of `Parser::parseProgram` (Parser.cpp lines 29-35): while the
lookahead is not end-of-input, try to accept the `fun` keyword and parse a
function after it.  Note the loop body consumes no token when the lookahead
is neither `fun` nor end-of-input. -/
def parseProgram : Nat → M Unit
  | 0 => throwF
  | fuel + 1 => do
    let s ← getS
    if (nextTok s).type = TokenType.T_EOF then M.pure ()
    else do
      let b ← accept TokenType.K_Fun false
      if b then do
        parseFunction fuel
        parseProgram fuel
      else parseProgram fuel
termination_by structural fuel => fuel

end

/-- Initial parser state on a token stream: nothing consumed, no blocks, no
current block, empty function table. -/
def initState (ts : List Token) : PState := ⟨ts, eofTok, [], none, []⟩

/-- Keyword / punctuation token. -/
def tk (t : TokenType) : Token := { type := t }

/-- Identifier token. -/
def idT (s : String) : Token := { type := TokenType.I_Identifier, str := s }

/-- Numeric-literal token. -/
def numT (n : Int) : Token := { type := TokenType.L_Numeric, num := n }

/-- Integer-literal primary expression (no unary minus). -/
def intLit (n : Int) : Expression := Expression.litE ⟨VarType.INT, [n]⟩ false

/-- Precedence chain the parser always builds around a single primary: a
one-operand node at every level (or, and, relational, logic, additive,
multiplicative). -/
def chainOf (p : Expression) : Expression :=
  Expression.orE
    (Expression.andE
      (Expression.relE
        (Expression.logicE (Expression.addE (Expression.mulE p []) []) false) none) []) []

/-- Relational-level one-operand chain around a bare variable reference. -/
def relChainVar (x : String) : Expression :=
  Expression.relE
    (Expression.logicE
      (Expression.addE (Expression.mulE (Expression.varE x false) []) []) false) none

/-- Tokens of `fun f() { f(); }`: a self-recursive call. -/
def progSelfRec : List Token :=
  [tk TokenType.K_Fun, idT "f", tk TokenType.T_OpenParen, tk TokenType.T_CloseParen,
   tk TokenType.T_OpenBrace, idT "f", tk TokenType.T_OpenParen, tk TokenType.T_CloseParen,
   tk TokenType.T_Semicolon, tk TokenType.T_CloseBrace, tk TokenType.T_EOF]

/-- Tokens of `fun g() { h(); } fun h() { }`: a call to a function defined
only later in the source. -/
def progForward : List Token :=
  [tk TokenType.K_Fun, idT "g", tk TokenType.T_OpenParen, tk TokenType.T_CloseParen,
   tk TokenType.T_OpenBrace, idT "h", tk TokenType.T_OpenParen, tk TokenType.T_CloseParen,
   tk TokenType.T_Semicolon, tk TokenType.T_CloseBrace,
   tk TokenType.K_Fun, idT "h", tk TokenType.T_OpenParen, tk TokenType.T_CloseParen,
   tk TokenType.T_OpenBrace, tk TokenType.T_CloseBrace, tk TokenType.T_EOF]

/-- Tokens of `fun f() { var x; { var x; } }`: the nested block re-declares a
name declared only in the enclosing block. -/
def progShadow : List Token :=
  [tk TokenType.K_Fun, idT "f", tk TokenType.T_OpenParen, tk TokenType.T_CloseParen,
   tk TokenType.T_OpenBrace, tk TokenType.K_Var, idT "x", tk TokenType.T_Semicolon,
   tk TokenType.T_OpenBrace, tk TokenType.K_Var, idT "x", tk TokenType.T_Semicolon,
   tk TokenType.T_CloseBrace, tk TokenType.T_CloseBrace, tk TokenType.T_EOF]

/-- Tokens of `fun f() { var x; { var y; } }`: the nested block declares a
fresh name. -/
def progNestedFresh : List Token :=
  [tk TokenType.K_Fun, idT "f", tk TokenType.T_OpenParen, tk TokenType.T_CloseParen,
   tk TokenType.T_OpenBrace, tk TokenType.K_Var, idT "x", tk TokenType.T_Semicolon,
   tk TokenType.T_OpenBrace, tk TokenType.K_Var, idT "y", tk TokenType.T_Semicolon,
   tk TokenType.T_CloseBrace, tk TokenType.T_CloseBrace, tk TokenType.T_EOF]

/-- Tokens of `fun f() { var x; { var y = x; } }`: a nested reference to a
name declared in the enclosing block. -/
def progOuterRef : List Token :=
  [tk TokenType.K_Fun, idT "f", tk TokenType.T_OpenParen, tk TokenType.T_CloseParen,
   tk TokenType.T_OpenBrace, tk TokenType.K_Var, idT "x", tk TokenType.T_Semicolon,
   tk TokenType.T_OpenBrace, tk TokenType.K_Var, idT "y", tk TokenType.T_Equal, idT "x",
   tk TokenType.T_Semicolon, tk TokenType.T_CloseBrace, tk TokenType.T_CloseBrace,
   tk TokenType.T_EOF]

/-- Tokens of `fun f() { { return x; } }`: a reference at nesting depth two to
a name declared nowhere. -/
def progUndeclRef : List Token :=
  [tk TokenType.K_Fun, idT "f", tk TokenType.T_OpenParen, tk TokenType.T_CloseParen,
   tk TokenType.T_OpenBrace, tk TokenType.T_OpenBrace, tk TokenType.K_Return, idT "x",
   tk TokenType.T_Semicolon, tk TokenType.T_CloseBrace, tk TokenType.T_CloseBrace,
   tk TokenType.T_EOF]

/-- Tokens of `fun m() { var v = [1,2,3]; var w = v[0]; var s = v[0:2]; }`. -/
def progIndexSlice : List Token :=
  [tk TokenType.K_Fun, idT "m", tk TokenType.T_OpenParen, tk TokenType.T_CloseParen,
   tk TokenType.T_OpenBrace,
   tk TokenType.K_Var, idT "v", tk TokenType.T_Equal, tk TokenType.T_OpenBracket,
   numT 1, tk TokenType.T_Comma, numT 2, tk TokenType.T_Comma, numT 3,
   tk TokenType.T_CloseBracket, tk TokenType.T_Semicolon,
   tk TokenType.K_Var, idT "w", tk TokenType.T_Equal, idT "v", tk TokenType.T_OpenBracket,
   numT 0, tk TokenType.T_CloseBracket, tk TokenType.T_Semicolon,
   tk TokenType.K_Var, idT "s", tk TokenType.T_Equal, idT "v", tk TokenType.T_OpenBracket,
   numT 0, tk TokenType.T_Colon, numT 2, tk TokenType.T_CloseBracket,
   tk TokenType.T_Semicolon,
   tk TokenType.T_CloseBrace, tk TokenType.T_EOF]

/-- Expression tokens `1 + 2 * 3`. -/
def toksAddMul : List Token := [numT 1, tk TokenType.T_Plus, numT 2, tk TokenType.T_Asterisk, numT 3]

/-- Expression tokens `! 1 + 2`. -/
def toksNotAdd : List Token := [tk TokenType.T_Exclamation, numT 1, tk TokenType.T_Plus, numT 2]

/-- Expression tokens `- [ 1 , 2 ]`: a unary minus immediately before a whole
vector literal. -/
def toksNegList : List Token :=
  [tk TokenType.T_Minus, tk TokenType.T_OpenBracket, numT 1, tk TokenType.T_Comma, numT 2,
   tk TokenType.T_CloseBracket]

/-- Expression tokens `[ - 1 ]`: a unary-minus-prefixed element inside a
vector literal. -/
def toksListNeg : List Token :=
  [tk TokenType.T_OpenBracket, tk TokenType.T_Minus, numT 1, tk TokenType.T_CloseBracket]

/-- Parser state positioned on `a || b && c` with `a`, `b`, `c` declared in
the current block. -/
def stVars : PState :=
  { toks := [idT "a", tk TokenType.T_Bar2, idT "b", tk TokenType.T_Ampersand2, idT "c"]
    current := eofTok
    blocks := [⟨none, [("a", defaultVar), ("b", defaultVar), ("c", defaultVar)], []⟩]
    blockCur := some 0
    program := [] }

/-- Parser state whose block 0 is being parsed and whose next tokens open a
nested block that then hits an invalid statement token (`{` then `)`). -/
def stC8bad : PState :=
  { toks := [tk TokenType.T_OpenBrace, tk TokenType.T_CloseParen]
    current := eofTok
    blocks := [⟨none, [], []⟩]
    blockCur := some 0
    program := [] }

/-- Parser state whose next token immediately closes block 0. -/
def stC8ok : PState :=
  { toks := [tk TokenType.T_CloseBrace]
    current := eofTok
    blocks := [⟨none, [], []⟩]
    blockCur := none
    program := [] }

/-- Token stream whose first top-level token is an identifier, not `fun`. -/
def stStray : PState := initState [idT "x", tk TokenType.T_EOF]

/-- Parser state positioned on `x ;` after the `var` keyword, with `x`
already declared in the current block. -/
def stDup : PState :=
  { toks := [idT "x", tk TokenType.T_Semicolon]
    current := eofTok
    blocks := [⟨none, [("x", defaultVar)], []⟩]
    blockCur := some 0
    program := [] }

/-- One-parameter function table entry used by the call-arity witness. -/
def fdF : FunDef := ⟨["p"], 0⟩

/-- Parser state positioned on `1 )` (the argument list of a call to `f`)
with `f` of arity one in the function table. -/
def stCall : PState :=
  { toks := [numT 1, tk TokenType.T_CloseParen]
    current := eofTok
    blocks := []
    blockCur := none
    program := [("f", fdF)] }

/-- State `stCall` after its two tokens have been consumed. -/
def stCallEnd : PState :=
  { toks := []
    current := tk TokenType.T_CloseParen
    blocks := []
    blockCur := none
    program := [("f", fdF)] }

/-- Parser state positioned on `( u , w ) ;` after the `append` keyword, with
`u` and `w` declared in the current block. -/
def stAppend : PState :=
  { toks := [tk TokenType.T_OpenParen, idT "u", tk TokenType.T_Comma, idT "w",
             tk TokenType.T_CloseParen, tk TokenType.T_Semicolon]
    current := eofTok
    blocks := [⟨none, [("u", defaultVar), ("w", defaultVar)], []⟩]
    blockCur := some 0
    program := [] }

/-- Walk `d` parent links upward from block `i` in the arena, yielding the
ancestor's index; used to state scope-chain properties at arbitrary nesting
depth. -/
def ancestorIdx (blocks : List BlockData) : Nat → Nat → Option Nat
  | i, 0 => some i
  | i, d + 1 =>
    match getBlock blocks i with
    | none => none
    | some bd =>
      match bd.parent with
      | none => none
      | some p => ancestorIdx blocks p d

/-- Parser state positioned on the expression read `z ;` inside a depth-two
block chain in which `z` is declared nowhere. -/
def stC6ReadUndecl : PState :=
  { toks := [idT "z", tk TokenType.T_Semicolon]
    current := eofTok
    blocks := [⟨none, [], []⟩, ⟨some 0, [], []⟩]
    blockCur := some 1
    program := [] }

/-- Parser state positioned after the statement-head identifier `z` with
`= 1 ;` remaining, inside a depth-two block chain in which `z` is declared
nowhere: an assignment whose target is undeclared. -/
def stC6Assign : PState :=
  { toks := [tk TokenType.T_Equal, numT 1, tk TokenType.T_Semicolon]
    current := idT "z"
    blocks := [⟨none, [], []⟩, ⟨some 0, [], []⟩]
    blockCur := some 1
    program := [] }

/-- Parser state whose `current` identifier `x` is declared only in the block
two parent links above the current block. -/
def stC6Outer : PState :=
  { toks := []
    current := idT "x"
    blocks := [⟨none, [("x", defaultVar)], []⟩, ⟨some 0, [], []⟩, ⟨some 1, [], []⟩]
    blockCur := some 2
    program := [] }

/-- Unfolding lemma: do-notation bind is `M.bind`. -/
theorem bind_eq (m : M α) (f : α → M β) : (m >>= f) = M.bind m f := rfl

/-- Chain-walk lemma: if walking `d` parent links from block `i` reaches a
block that declares `id`, and the walk fuel exceeds `d`, then the outward
lookup starting at `i` reports the name as visible. -/
theorem existVarFrom_of_ancestor :
    ∀ d fuel blocks i id j bd, d < fuel → ancestorIdx blocks i d = some j →
      getBlock blocks j = some bd → lookupVar bd.vars id = true →
      existVarFrom blocks fuel i id = true := by
  intro d
  induction d with
  | zero =>
    intro fuel blocks i id j bd hf hanc hblk hlook
    cases fuel with
    | zero => exact absurd hf (by omega)
    | succ f =>
      simp only [ancestorIdx, Option.some.injEq] at hanc
      subst hanc
      simp [existVarFrom, hblk, hlook]
  | succ d ih =>
    intro fuel blocks i id j bd hf hanc hblk hlook
    cases fuel with
    | zero => exact absurd hf (by omega)
    | succ f =>
      cases hgi : getBlock blocks i with
      | none => simp [ancestorIdx, hgi] at hanc
      | some bdi =>
        cases hp : bdi.parent with
        | none => simp [ancestorIdx, hgi, hp] at hanc
        | some p =>
          simp only [ancestorIdx, hgi, hp] at hanc
          have hrec := ih f blocks p id j bd (by omega) hanc hblk hlook
          by_cases hl : lookupVar bdi.vars id
          · simp [existVarFrom, hgi, hl]
          · simp [existVarFrom, hgi, hp, hl, hrec]

/-- Unfolding lemma: do-notation pure is `M.pure`. -/
theorem pure_eq (a : α) : (pure a : M α) = M.pure a := rfl

/-- C1 (counterexample): on `fun f() { var x; { var x; } }` — a `var`
declaration in a nested block naming an identifier declared only in the
enclosing block — the parse fails with the DuplicateVariable fault, refuting
the claim that such a declaration never fails. -/
theorem c1_shadowing_counterexample :
    (parseProgram 50 (initState progShadow)).1 = Except.error Err.duplicateVariable := rfl

/-- C1 (amended): a `var` declaration naming an identifier that is visible
anywhere in the current scope chain — in the same block or in an enclosing
block — fails with DuplicateVariable, because `parseInitStatement` checks the
name through the chain-walking `existVariable` lookup; a `var` in a nested
block succeeds only for a name not visible in the chain, as on
`fun f() { var x; { var y; } }`. -/
theorem c1_chain_redeclaration :
    (∀ fuel st id rest, st.toks = idT id :: rest → existVar st id = true →
        parseInitStatement (fuel + 1) st =
          (Except.error Err.duplicateVariable, { st with toks := rest, current := idT id }))
    ∧ (parseProgram 50 (initState progNestedFresh)).1 = Except.ok () := by
  refine ⟨?_, rfl⟩
  intro fuel st id rest ht hex
  obtain ⟨toks, cur, blocks, bcur, prog⟩ := st
  simp only at ht
  subst ht
  simp only [existVar] at hex
  simp [parseInitStatement, expect, accept, bind_eq, pure_eq, M.bind, M.pure, M.throw,
    nextTok, moveSt, getCurrent, getS, idT, existVar, hex]

/-- C1 (witness): the re-declaration branch at a concrete state: `var x ;`
with `x` already declared in the current block. -/
theorem c1_chain_redeclaration_witness :
    parseInitStatement 10 stDup =
      (Except.error Err.duplicateVariable,
        { stDup with toks := [tk TokenType.T_Semicolon], current := idT "x" }) :=
  c1_chain_redeclaration.1 9 stDup "x" [tk TokenType.T_Semicolon] rfl rfl

/-- C2: `parseProgram` does not terminate when the lookahead is a top-level
token that is neither the `fun` keyword nor end-of-input: the loop body
consumes nothing, so the state repeats and every fuel is exhausted (the C++
original spins forever instead of skipping the token as the spec claims). -/
theorem c2_parseProgram_diverges :
    ∀ fuel st, (nextTok st).type ≠ TokenType.K_Fun → (nextTok st).type ≠ TokenType.T_EOF →
      parseProgram fuel st = (Except.error Err.outOfFuel, st) := by
  intro fuel
  induction fuel with
  | zero => intro st h1 h2; rfl
  | succ n ih =>
    intro st h1 h2
    have hstep : parseProgram (n + 1) st = parseProgram n st := by
      simp [parseProgram, bind_eq, pure_eq, M.bind, M.pure, getS, accept, h1, h2]
    rw [hstep]
    exact ih st h1 h2

/-- C2 (witness): the divergence at the concrete top-level stream
`x <eof>`. -/
theorem c2_parseProgram_diverges_witness :
    parseProgram 7 stStray = (Except.error Err.outOfFuel, stStray) :=
  c2_parseProgram_diverges 7 stStray (by decide) (by decide)

/-- C3: a function is registered before its body is parsed: the
self-recursive `fun f() { f(); }` parses successfully, the forward call in
`fun g() { h(); } fun h() { }` fails with the UndefinedFunction fault, and in
general `parseFunCall` on a name absent from the function table fails with
UndefinedFunction without consuming input. -/
theorem c3_registration_order :
    (parseProgram 50 (initState progSelfRec)).1 = Except.ok ()
    ∧ (parseProgram 50 (initState progForward)).1 = Except.error Err.undefinedFunction
    ∧ (∀ fuel name st, existFunction st.program name = false →
        parseFunCall (fuel + 1) name st = (Except.error Err.undefinedFunction, st)) := by
  refine ⟨rfl, rfl, ?_⟩
  intro fuel name st h
  have hf : findFunction st.program name = none := by
    cases hff : findFunction st.program name with
    | none => rfl
    | some fd => rw [existFunction, hff] at h; simp at h
  simp [parseFunCall, bind_eq, M.bind, getS, hf, M.throw]

/-- C3 (witness): the UndefinedFunction branch at a concrete state with an
empty function table. -/
theorem c3_registration_order_witness :
    parseFunCall 5 "q" (initState []) = (Except.error Err.undefinedFunction, initState []) :=
  c3_registration_order.2.2 4 "q" (initState []) rfl

/-- C4: in `append(identifierA, identifierB)`, each identifier is resolved
through the scope chain as it is consumed: an unresolvable first identifier
fails with UndefinedVariable, an unresolvable second identifier fails with
UndefinedVariable, and when both resolve the statement parses to an append
node. -/
theorem c4_append_requires_declared :
    ∀ st a b rest, st.toks = tk TokenType.T_OpenParen :: idT a :: tk TokenType.T_Comma ::
        idT b :: tk TokenType.T_CloseParen :: tk TokenType.T_Semicolon :: rest →
      ((existVar st a = false →
          parseAppendStatement st = (Except.error Err.undefinedVariable,
            { st with toks := tk TokenType.T_Comma :: idT b :: tk TokenType.T_CloseParen :: tk TokenType.T_Semicolon :: rest, current := idT a }))
       ∧ (existVar st a = true → existVar st b = false →
          parseAppendStatement st = (Except.error Err.undefinedVariable,
            { st with toks := tk TokenType.T_CloseParen :: tk TokenType.T_Semicolon :: rest, current := idT b }))
       ∧ (existVar st a = true → existVar st b = true →
          parseAppendStatement st = (Except.ok (Statement.appendS a b),
            { st with toks := rest, current := tk TokenType.T_Semicolon }))) := by
  intro st a b rest ht
  obtain ⟨toks, cur, blocks, bcur, prog⟩ := st
  simp only at ht
  subst ht
  refine ⟨?_, ?_, ?_⟩
  · intro ha
    simp only [existVar] at ha
    simp [parseAppendStatement, expect, accept, bind_eq, pure_eq, M.bind, M.pure, M.throw,
      nextTok, moveSt, getCurrent, findVariableM, idT, tk, existVar, ha]
  · intro ha hb
    simp only [existVar] at ha hb
    simp [parseAppendStatement, expect, accept, bind_eq, pure_eq, M.bind, M.pure, M.throw,
      nextTok, moveSt, getCurrent, findVariableM, idT, tk, existVar, ha, hb]
  · intro ha hb
    simp only [existVar] at ha hb
    simp [parseAppendStatement, expect, accept, bind_eq, pure_eq, M.bind, M.pure, M.throw,
      nextTok, moveSt, getCurrent, findVariableM, idT, tk, existVar, ha, hb]

/-- C4 (witness): the all-resolved branch at a concrete state with `u` and
`w` declared. -/
theorem c4_append_requires_declared_witness :
    parseAppendStatement stAppend = (Except.ok (Statement.appendS "u" "w"),
      { stAppend with toks := [], current := tk TokenType.T_Semicolon }) :=
  (c4_append_requires_declared stAppend "u" "w" [] rfl).2.2 rfl rfl

/-- C5: for a call to a defined function, after the argument expressions have
been parsed, the call parses successfully exactly when the argument count
equals the callee's declared parameter count, and otherwise fails with the
ArityMismatch fault — independently of the complexity of the argument
expressions, which only enter through the hypothesis on `parseFunCallArgs`. -/
theorem c5_funcall_arity :
    ∀ fuel st st2 name fd es, findFunction st.program name = some fd →
      parseFunCallArgs fuel st = (Except.ok es, st2) →
      parseFunCall (fuel + 1) name st =
        if fd.params.length = es.length then (Except.ok (name, es), st2)
        else (Except.error Err.arityMismatch, st2) := by
  intro fuel st st2 name fd es hfind hargs
  by_cases hlen : fd.params.length = es.length
  · simp [parseFunCall, bind_eq, pure_eq, M.bind, M.pure, M.throw, getS, hfind, hargs, hlen]
  · simp [parseFunCall, bind_eq, pure_eq, M.bind, M.pure, M.throw, getS, hfind, hargs, hlen]

/-- C5 (witness): a call to the one-parameter `f` with the single argument
`1` parses successfully. -/
theorem c5_funcall_arity_witness :
    parseFunCall 21 "f" stCall = (Except.ok ("f", [chainOf (intLit 1)]), stCallEnd) := by
  have h := c5_funcall_arity 20 stCall stCallEnd "f" fdF [chainOf (intLit 1)] rfl rfl
  simpa using h

/-- C6: identifier references resolve through the whole scope chain, for
every state.  (i) An expression read of an identifier that the chain from the
current block does not resolve fails with UndefinedVariable (the
`parseBaseMathExpr` identifier branch, for any state, so at any nesting
depth).  (ii) An assignment target that the chain does not resolve fails with
UndefinedVariable (the `parseAssignOrFunCall` non-call branch, for any
state).  (iii) Resolution succeeds for a name declared in the block reached
after walking any number `d` of parent links — a name declared in an
enclosing block at any depth.  (iv)-(v) End-to-end: the nested reference to
the outer `x` in `fun f() { var x; { var y = x; } }` parses successfully,
while the undeclared reference at nesting depth two in
`fun f() { { return x; } }` fails with the UndefinedVariable fault. -/
theorem c6_scope_chain_reference :
    (∀ fuel st id rest, st.toks = idT id :: rest →
        (nextTok { st with current := idT id, toks := rest }).type ≠ TokenType.T_OpenParen →
        existVar st id = false →
        parseBaseMathExpr (fuel + 1) st =
          (Except.error Err.undefinedVariable, { st with current := idT id, toks := rest }))
    ∧ (∀ fuel st, (nextTok st).type ≠ TokenType.T_OpenParen →
        existVar st st.current.str = false →
        parseAssignOrFunCall (fuel + 1) st = (Except.error Err.undefinedVariable, st))
    ∧ (∀ st i d j bd, st.blockCur = some i → ancestorIdx st.blocks i d = some j →
        getBlock st.blocks j = some bd → lookupVar bd.vars st.current.str = true →
        d ≤ st.blocks.length →
        existVariableM st = (Except.ok true, st))
    ∧ (parseProgram 50 (initState progOuterRef)).1 = Except.ok ()
    ∧ (parseProgram 50 (initState progUndeclRef)).1 = Except.error Err.undefinedVariable := by
  refine ⟨?_, ?_, ?_, rfl, rfl⟩
  · intro fuel st id rest ht hpar hex
    obtain ⟨toks, cur, blocks, bcur, prog⟩ := st
    simp only at ht
    subst ht
    simp only [existVar] at hex
    simp only [nextTok, idT] at hpar
    simp [parseBaseMathExpr, expect, accept, bind_eq, pure_eq, M.bind, M.pure, M.throw,
      nextTok, moveSt, getCurrent, getS, existVariableM, findVariableM, idT, tk, existVar,
      hpar, hex]
  · intro fuel st h1 h2
    simp [parseAssignOrFunCall, accept, bind_eq, pure_eq, M.bind, M.pure, M.throw,
      getCurrent, existVariableM, h1, h2]
  · intro st i d j bd hcur hanc hblk hlook hd
    have hev : existVar st st.current.str = true := by
      simp only [existVar, hcur]
      exact existVarFrom_of_ancestor d (st.blocks.length + 1) st.blocks i st.current.str j bd
        (by omega) hanc hblk hlook
    simp [existVariableM, hev]

/-- C6 (witness): each general clause at a concrete input: the undeclared
expression read `z` at chain depth two faults, the undeclared assignment
target `z` at chain depth two faults, and the `current` identifier `x`
declared two parent links above the current block resolves. -/
theorem c6_scope_chain_reference_witness :
    parseBaseMathExpr 10 stC6ReadUndecl =
      (Except.error Err.undefinedVariable,
        { stC6ReadUndecl with current := idT "z", toks := [tk TokenType.T_Semicolon] })
    ∧ parseAssignOrFunCall 10 stC6Assign = (Except.error Err.undefinedVariable, stC6Assign)
    ∧ existVariableM stC6Outer = (Except.ok true, stC6Outer) :=
  ⟨c6_scope_chain_reference.1 9 stC6ReadUndecl "z" [tk TokenType.T_Semicolon] rfl (by decide) rfl,
   c6_scope_chain_reference.2.1 9 stC6Assign (by decide) rfl,
   c6_scope_chain_reference.2.2.1 stC6Outer 2 2 0 ⟨none, [("x", defaultVar)], []⟩
     rfl rfl rfl rfl (by decide)⟩

/-- C7: the expression grammar yields the documented precedence: `1 + 2 * 3`
parses as the sum of `1` and the product `2 * 3`; `a || b && c` parses as the
disjunction of `a` with the conjunction `b && c`; `! 1 + 2` parses with the
negation flag on the node wrapping the entire additive chain `1 + 2`, not
just the literal `1`. -/
theorem c7_precedence :
    (parseOrExpr 30 (initState toksAddMul)).1 =
      Except.ok (Expression.orE (Expression.andE (Expression.relE (Expression.logicE
        (Expression.addE (Expression.mulE (intLit 1) [])
          [(AddOp.plus, Expression.mulE (intLit 2) [(MulOp.times, intLit 3)])]) false)
        none) []) [])
    ∧ (parseOrExpr 30 stVars).1 =
      Except.ok (Expression.orE (Expression.andE (relChainVar "a") [])
        [Expression.andE (relChainVar "b") [relChainVar "c"]])
    ∧ (parseOrExpr 30 (initState toksNotAdd)).1 =
      Except.ok (Expression.orE (Expression.andE (Expression.relE (Expression.logicE
        (Expression.addE (Expression.mulE (intLit 1) [])
          [(AddOp.plus, Expression.mulE (intLit 2) [])]) true) none) []) []) :=
  ⟨rfl, rfl, rfl⟩

/-- C8 (counterexample): when the parse of a nested block aborts with a fault
(here: the invalid statement token `)` inside the nested block opened by
`{`), the current-block cursor is NOT restored: it stays at the nested block
(index 1) although the nested block's parent is block 0 — refuting the
"regardless of how the nested parse completed" part of the claim. -/
theorem c8_cursor_counterexample :
    (parseStmtBlock 30 0 stC8bad).1 = Except.error Err.blockParseInvalid
    ∧ (parseStmtBlock 30 0 stC8bad).2.blockCur = some 1
    ∧ getBlock (parseStmtBlock 30 0 stC8bad).2.blocks 1 = some ⟨some 0, [], []⟩
    ∧ (some 1 : Option Nat) ≠ some 0 :=
  ⟨rfl, rfl, rfl, by decide⟩

/-- C8 (amended): a nested block is created with the current block as parent
and becomes current for the duration of its parse; the cursor is restored to
the block's parent whenever `parseStmtBlock` completes *successfully* (when
it aborts with a fault, the whole parse aborts and the cursor stays where the
fault struck). -/
theorem c8_cursor_restored_on_success :
    ∀ fuel b st, (parseStmtBlock fuel b st).1 = Except.ok () →
      (parseStmtBlock fuel b st).2.blockCur =
        Option.bind (getBlock (parseStmtBlock fuel b st).2.blocks b) BlockData.parent := by
  intro fuel b st h
  match fuel with
  | 0 => exact absurd h (by simp [parseStmtBlock, throwF, M.throw])
  | f + 1 =>
    have hb : parseStmtBlock (f + 1) b st =
        M.bind (parseStmtLoop f)
          (fun _ => modifyS fun s =>
            { s with blockCur := Option.bind (getBlock s.blocks b) BlockData.parent })
          { st with blockCur := some b } := rfl
    rcases hr : parseStmtLoop f { st with blockCur := some b } with ⟨res, s1⟩
    rw [hb, M.bind, hr] at h ⊢
    cases res with
    | ok u => rfl
    | error e => exact absurd h (by simp)

/-- C8 (witness): the successful restoration at a concrete state whose block
is closed immediately. -/
theorem c8_cursor_restored_on_success_witness :
    (parseStmtBlock 10 0 stC8ok).1 = Except.ok ()
    ∧ (parseStmtBlock 10 0 stC8ok).2.blockCur =
        Option.bind (getBlock (parseStmtBlock 10 0 stC8ok).2.blocks 0) BlockData.parent :=
  ⟨rfl, c8_cursor_restored_on_success 10 0 stC8ok rfl⟩

/-- C9: in `fun m() { var v = [1,2,3]; var w = v[0]; var s = v[0:2]; }`, the
initializer of `w` parses as a variable reference carrying a single index
expression and the initializer of `s` as a slice reference carrying two bound
expressions, each bound parsed as a full expression chain. -/
theorem c9_index_slice :
    (parseProgram 80 (initState progIndexSlice)).1 = Except.ok ()
    ∧ (getBlock (parseProgram 80 (initState progIndexSlice)).2.blocks 0).map BlockData.stmts =
      some [Statement.assignS "v" none (chainOf (Expression.litE ⟨VarType.LIST, [1, 2, 3]⟩ false)),
            Statement.assignS "w" none
              (chainOf (Expression.idxE "v" (Expression.orE (chainOf (intLit 0)) []) false)),
            Statement.assignS "s" none
              (chainOf (Expression.sliceE "v" (Expression.orE (chainOf (intLit 0)) [])
                (Expression.orE (chainOf (intLit 2)) []) false))] :=
  ⟨rfl, rfl⟩

/-- C10: every element of a vector literal must be a bare numeric literal:
whenever the token after the consumed `[` (or after a separating comma, by
the same `accept`) is not numeric, `parseVectorLiteral` fails with the syntax
fault — concretely `[ - 1 ]` fails — although a unary minus immediately
before the `[` of the whole literal is accepted and recorded on the node, as
`- [ 1 , 2 ]` shows. -/
theorem c10_vector_literal :
    (∀ st fuel, (nextTok st).type ≠ TokenType.L_Numeric →
        parseVectorLiteral (fuel + 1) st = (Except.error Err.wrongToken, st))
    ∧ (parseOrExpr 30 (initState toksListNeg)).1 = Except.error Err.wrongToken
    ∧ (parseOrExpr 30 (initState toksNegList)).1 =
        Except.ok (chainOf (Expression.litE ⟨VarType.LIST, [1, 2]⟩ true)) := by
  refine ⟨?_, rfl, rfl⟩
  intro st fuel h
  simp [parseVectorLiteral, expect, accept, bind_eq, pure_eq, M.bind, M.pure, M.throw, h]

/-- C10 (witness): the non-numeric-element fault at a concrete state whose
lookahead is a minus sign. -/
theorem c10_vector_literal_witness :
    parseVectorLiteral 5 (initState [tk TokenType.T_Minus]) =
      (Except.error Err.wrongToken, initState [tk TokenType.T_Minus]) :=
  c10_vector_literal.1 (initState [tk TokenType.T_Minus]) 4 (by decide)
